import Mathlib

/-
Verification of the HousePricePred repository (src/new.py): a Streamlit app
that loads a pickled regression model and feature scaler, derives four
arithmetic features from twelve raw inputs, and predicts a house price.

Embedding choices:
  - Numeric values carried through pandas columns are modelled as ℚ; the
    derivations use only +, *, / on small decimal literals, where rational
    arithmetic mirrors the source expressions one-to-one.
  - The pickled model and scaler are opaque capability records: the scaler
    maps a feature row to a row, the model maps a row to a list of outputs
    (`model.predict(rows)[0]` is modelled with `List.headD 0`, the model
    contract guaranteeing one output per row).
  - The single-row DataFrame `input_data` is an ordered association list of
    (column-name, value) pairs; column insertion order in pandas is the list
    order here.
  - Python exceptions are an explicit `Except` channel; `try/except
    FileNotFoundError` is a match on the error value.
  - The top-level script (globals assignment, `model_loaded` check with
    `st.stop()`, predict button) is one total function to `ScriptOutcome`.
-/

namespace HousePred

/-- Opaque fitted scaler artifact: `transform(row) -> row`. -/
structure Scaler where
  transform : List ℚ → List ℚ

/-- Opaque fitted regression model artifact: `predict(rows) -> [value]`. -/
structure Model where
  predict : List ℚ → List ℚ

/-- Outcome of opening and unpickling one artifact file. -/
inductive ReadResult (α : Type) where
  | missing : ReadResult α
  | unreadable : ReadResult α
  | ok : α → ReadResult α

/-- Python exceptions that the embedded code can raise. -/
inductive PyError where
  | fileNotFoundError : PyError
  | readError : PyError
  | noneTypeError : PyError
deriving DecidableEq

/-- State of the two artifact files on disk at startup. -/
structure ArtifactStore where
  modelFile : ReadResult Model
  scalerFile : ReadResult Scaler

/-- Opening a file and unpickling it: a missing file raises
FileNotFoundError; an existing but unreadable or corrupt file raises some
other error (PermissionError, UnpicklingError, ...). -/
def openAndUnpickle {α : Type} : ReadResult α → Except PyError α
  | .missing => .error .fileNotFoundError
  | .unreadable => .error .readError
  | .ok a => .ok a

/-- Embedding of load_model_and_scaler (src/new.py lines 102-111): open and
unpickle the model then the scaler inside a try block; only
FileNotFoundError is caught, returning (None, None, False); any other
error propagates. -/
def load_model_and_scaler (store : ArtifactStore) :
    Except PyError (Option Model × Option Scaler × Bool) :=
  match (do
      let model ← openAndUnpickle store.modelFile
      let scaler ← openAndUnpickle store.scalerFile
      pure (some model, some scaler, true) :
      Except PyError (Option Model × Option Scaler × Bool)) with
  | .error .fileNotFoundError => .ok (none, none, false)
  | r => r

/-- True when an artifact file is absent or unreadable. -/
def isUnavailable {α : Type} : ReadResult α → Bool
  | .ok _ => false
  | _ => true

/-- True when one or both artifact files are absent or unreadable. -/
def artifactUnavailable (store : ArtifactStore) : Bool :=
  isUnavailable store.modelFile || isUnavailable store.scalerFile

/-- Python int(b) on a boolean, as a rational 0 or 1. -/
def boolToInt (b : Bool) : ℚ :=
  if b then 1 else 0

/-- Denominator of the bathroom/bedroom ratio derivation
(src/new.py line 137): `bedrooms + 1`. -/
def ratioDenominator (bedrooms : ℚ) : ℚ :=
  bedrooms + 1

/-- Embedding of predict_house_price (src/new.py lines 118-145) given the
already-loaded artifacts: assemble the 12 raw columns in source order,
append the four derived columns, scale, predict, and return the scalar
prediction together with the unscaled assembled row. -/
def predict_house_price (model : Model) (scaler : Scaler)
    (bedrooms grade : ℚ) (has_basement : Bool) (living_in_m2 : ℚ)
    (renovated nice_view perfect_condition : Bool) (real_bathrooms : ℚ)
    (has_lavatory single_floor : Bool) (month quartile_zone : ℚ) :
    ℚ × List (String × ℚ) :=
  let input_data : List (String × ℚ) :=
    [("bedrooms", bedrooms),
     ("grade", grade),
     ("has_basement", boolToInt has_basement),
     ("living_in_m2", living_in_m2),
     ("renovated", boolToInt renovated),
     ("nice_view", boolToInt nice_view),
     ("perfect_condition", boolToInt perfect_condition),
     ("real_bathrooms", real_bathrooms),
     ("has_lavatory", boolToInt has_lavatory),
     ("single_floor", boolToInt single_floor),
     ("month", month),
     ("quartile_zone", quartile_zone)]
  let input_data := input_data ++
    [("bathroom_bedroom_ratio", real_bathrooms / ratioDenominator bedrooms),
     ("total_rooms", bedrooms + real_bathrooms),
     ("luxury_score", grade * living_in_m2 / 100),
     ("quality_index", grade * (boolToInt perfect_condition + 1))]
  let input_scaled := scaler.transform (input_data.map Prod.snd)
  let prediction := (model.predict input_scaled).headD 0
  (prediction, input_data)

/-- Value of a named column of the single-row feature table (pandas
`row[name]`; 0 as a don't-care default for an absent column). -/
def col (row : List (String × ℚ)) (name : String) : ℚ :=
  match row.find? (fun p => p.1 == name) with
  | some p => p.2
  | none => 0

/-- Module-level globals set by `model, scaler, model_loaded =
load_model_and_scaler()` (src/new.py line 113). -/
structure Globals where
  model : Option Model
  scaler : Option Scaler
  model_loaded : Bool

/-- The twelve raw sidebar inputs. -/
structure RawInputs where
  bedrooms : ℚ
  real_bathrooms : ℚ
  living_in_m2 : ℚ
  grade : ℚ
  quartile_zone : ℚ
  has_basement : Bool
  renovated : Bool
  nice_view : Bool
  perfect_condition : Bool
  has_lavatory : Bool
  single_floor : Bool
  month : ℚ

/-- A call to predict_house_price as the script performs it: it reads the
module globals `model` and `scaler` (src/new.py lines 142-143), raises a
NoneType attribute error when either is None, and mutates nothing — the
unchanged globals are returned alongside the result to make that explicit. -/
def predict_house_price_run (g : Globals) (r : RawInputs) :
    Except PyError (ℚ × List (String × ℚ)) × Globals :=
  match g.model, g.scaler with
  | some m, some s =>
      (.ok (predict_house_price m s r.bedrooms r.grade r.has_basement
              r.living_in_m2 r.renovated r.nice_view r.perfect_condition
              r.real_bathrooms r.has_lavatory r.single_floor r.month
              r.quartile_zone), g)
  | _, _ => (.error .noneTypeError, g)

/-- Result of one run of the top-level script. -/
inductive ScriptOutcome where
  | raised : PyError → ScriptOutcome
  | haltedWithError : ScriptOutcome
  | prompted : ScriptOutcome
  | predicted : ℚ → List (String × ℚ) → ScriptOutcome

/-- Embedding of the top-level script flow (src/new.py lines 113, 157-159,
206-230): load the artifacts into the globals; if not model_loaded, show
the error and `st.stop()`; otherwise, if the predict button was pressed,
call predict_house_price and display the price, else show the prompt. -/
def run_app (store : ArtifactStore) (r : RawInputs) (pressed : Bool) :
    ScriptOutcome :=
  match load_model_and_scaler store with
  | .error e => .raised e
  | .ok (mOpt, sOpt, loaded) =>
    let g : Globals := ⟨mOpt, sOpt, loaded⟩
    if ¬ g.model_loaded then .haltedWithError
    else if pressed then
      match (predict_house_price_run g r).1 with
      | .ok (p, row) => .predicted p row
      | .error e => .raised e
    else .prompted

/-- The fixed 16-column order of the assembled feature row. -/
def featureColumns : List String :=
  ["bedrooms", "grade", "has_basement", "living_in_m2", "renovated",
   "nice_view", "perfect_condition", "real_bathrooms", "has_lavatory",
   "single_floor", "month", "quartile_zone", "bathroom_bedroom_ratio",
   "total_rooms", "luxury_score", "quality_index"]

/-- Artifact store in which the model file exists but is unreadable and
the scaler file is missing. -/
def storeUnreadableModel : ArtifactStore :=
  ⟨ReadResult.unreadable, ReadResult.missing⟩

/-- Artifact store in which both artifact files are missing. -/
def storeBothMissing : ArtifactStore :=
  ⟨ReadResult.missing, ReadResult.missing⟩

/-- A concrete scaler artifact used to instantiate universally quantified
statements: the identity transform. -/
def identityScaler : Scaler :=
  ⟨fun row => row⟩

/-- A concrete model artifact used to instantiate universally quantified
statements: always outputs the single value 0. -/
def zeroModel : Model :=
  ⟨fun _ => [0]⟩

/-- Concrete raw inputs matching the boundary scenario of the spec. -/
def sampleInputs : RawInputs :=
  ⟨2, 2, 180, 3, 2, false, false, false, false, false, false, 6⟩

/-- C1 (counterexample): at a startup state whose model artifact exists but
is unreadable, load_model_and_scaler raises an uncaught error (only
FileNotFoundError is caught) instead of returning a loaded=false triple,
refuting the claim for the "unreadable" case. -/
theorem loadUnreadableRaises :
    artifactUnavailable storeUnreadableModel = true ∧
    load_model_and_scaler storeUnreadableModel
      = Except.error PyError.readError ∧
    load_model_and_scaler storeUnreadableModel
      ≠ Except.ok (none, none, false) := by
  have h1 : load_model_and_scaler storeUnreadableModel
      = Except.error PyError.readError := rfl
  refine ⟨rfl, h1, ?_⟩
  intro h
  rw [h1] at h
  exact Except.noConfusion h

/-- C1 (amended): whenever the failing artifact read is a missing file —
the model file is missing, or the model file unpickles fine and the scaler
file is missing — the FileNotFoundError is caught and
load_model_and_scaler returns (None, None, False) without raising. -/
theorem loadMissingReturnsNotLoaded (store : ArtifactStore)
    (h : store.modelFile = ReadResult.missing ∨
         ((∃ m, store.modelFile = ReadResult.ok m) ∧
          store.scalerFile = ReadResult.missing)) :
    load_model_and_scaler store = Except.ok (none, none, false) := by
  rcases h with h | ⟨⟨m, hm⟩, hs⟩
  · unfold load_model_and_scaler
    rw [h]
    rfl
  · unfold load_model_and_scaler
    rw [hm, hs]
    rfl

/-- Witness for loadMissingReturnsNotLoaded at the store with both
artifact files missing. -/
theorem loadMissingReturnsNotLoadedWitness :
    storeBothMissing.modelFile = ReadResult.missing ∧
    load_model_and_scaler storeBothMissing = Except.ok (none, none, false) :=
  ⟨rfl, loadMissingReturnsNotLoaded storeBothMissing (Or.inl rfl)⟩

/-- C2: for bedrooms and real_bathrooms in the UI range {1,2,3} (and any
values of the other raw inputs), the bathroom_bedroom_ratio column of the
row assembled by predict_house_price equals real_bathrooms / (bedrooms + 1). -/
theorem bathroomRatioFormula (m : Model) (s : Scaler) (bedrooms grade : ℚ)
    (has_basement : Bool) (living_in_m2 : ℚ)
    (renovated nice_view perfect_condition : Bool) (real_bathrooms : ℚ)
    (has_lavatory single_floor : Bool) (month quartile_zone : ℚ)
    (hbed : bedrooms ∈ ([1, 2, 3] : List ℚ))
    (hbath : real_bathrooms ∈ ([1, 2, 3] : List ℚ)) :
    col (predict_house_price m s bedrooms grade has_basement living_in_m2
          renovated nice_view perfect_condition real_bathrooms has_lavatory
          single_floor month quartile_zone).2 "bathroom_bedroom_ratio"
      = real_bathrooms / (bedrooms + 1) := rfl

/-- Witness for bathroomRatioFormula at bedrooms = 2, real_bathrooms = 2. -/
theorem bathroomRatioFormulaWitness :
    ((2 : ℚ) ∈ ([1, 2, 3] : List ℚ)) ∧
    col (predict_house_price zeroModel identityScaler 2 3 false 180 false
          false false 2 false false 6 2).2 "bathroom_bedroom_ratio"
      = 2 / (2 + 1) :=
  ⟨by norm_num,
   bathroomRatioFormula zeroModel identityScaler 2 3 false 180 false false
     false 2 false false 6 2 (by norm_num) (by norm_num)⟩

/-- C3: for grade in {1..5} and living_in_m2 in [49, 400] (and any values
of the other raw inputs), the luxury_score column of the row assembled by
predict_house_price equals grade * living_in_m2 / 100. -/
theorem luxuryScoreFormula (m : Model) (s : Scaler) (bedrooms grade : ℚ)
    (has_basement : Bool) (living_in_m2 : ℚ)
    (renovated nice_view perfect_condition : Bool) (real_bathrooms : ℚ)
    (has_lavatory single_floor : Bool) (month quartile_zone : ℚ)
    (hg : grade ∈ ([1, 2, 3, 4, 5] : List ℚ))
    (hlo : 49 ≤ living_in_m2) (hhi : living_in_m2 ≤ 400) :
    col (predict_house_price m s bedrooms grade has_basement living_in_m2
          renovated nice_view perfect_condition real_bathrooms has_lavatory
          single_floor month quartile_zone).2 "luxury_score"
      = grade * living_in_m2 / 100 := rfl

/-- Witness for luxuryScoreFormula at grade = 3, living_in_m2 = 180. -/
theorem luxuryScoreFormulaWitness :
    ((3 : ℚ) ∈ ([1, 2, 3, 4, 5] : List ℚ)) ∧ (49 : ℚ) ≤ 180 ∧
    ((180 : ℚ) ≤ 400) ∧
    col (predict_house_price zeroModel identityScaler 2 3 false 180 false
          false false 2 false false 6 2).2 "luxury_score"
      = 3 * 180 / 100 :=
  ⟨by norm_num, by norm_num, by norm_num,
   luxuryScoreFormula zeroModel identityScaler 2 3 false 180 false false
     false 2 false false 6 2 (by norm_num) (by norm_num) (by norm_num)⟩

/-- C4: for grade in {1..5} (and any values of the other raw inputs), the
quality_index column of the row assembled by predict_house_price equals
grade * (flag + 1), where flag is 1 when perfect_condition is true and 0
otherwise. -/
theorem qualityIndexFormula (m : Model) (s : Scaler) (bedrooms grade : ℚ)
    (has_basement : Bool) (living_in_m2 : ℚ)
    (renovated nice_view perfect_condition : Bool) (real_bathrooms : ℚ)
    (has_lavatory single_floor : Bool) (month quartile_zone : ℚ)
    (hg : grade ∈ ([1, 2, 3, 4, 5] : List ℚ)) :
    col (predict_house_price m s bedrooms grade has_basement living_in_m2
          renovated nice_view perfect_condition real_bathrooms has_lavatory
          single_floor month quartile_zone).2 "quality_index"
      = grade * ((if perfect_condition then 1 else 0) + 1) := rfl

/-- Witness for qualityIndexFormula at grade = 3, perfect_condition
false. -/
theorem qualityIndexFormulaWitness :
    ((3 : ℚ) ∈ ([1, 2, 3, 4, 5] : List ℚ)) ∧
    col (predict_house_price zeroModel identityScaler 2 3 false 180 false
          false false 2 false false 6 2).2 "quality_index"
      = 3 * ((if False then 1 else 0) + 1) :=
  ⟨by norm_num,
   qualityIndexFormula zeroModel identityScaler 2 3 false 180 false false
     false 2 false false 6 2 (by norm_num)⟩

/-- C5: for bedrooms and real_bathrooms in the UI range {1,2,3} (and any
values of the other raw inputs), the total_rooms column of the row
assembled by predict_house_price equals bedrooms + real_bathrooms. -/
theorem totalRoomsFormula (m : Model) (s : Scaler) (bedrooms grade : ℚ)
    (has_basement : Bool) (living_in_m2 : ℚ)
    (renovated nice_view perfect_condition : Bool) (real_bathrooms : ℚ)
    (has_lavatory single_floor : Bool) (month quartile_zone : ℚ)
    (hbed : bedrooms ∈ ([1, 2, 3] : List ℚ))
    (hbath : real_bathrooms ∈ ([1, 2, 3] : List ℚ)) :
    col (predict_house_price m s bedrooms grade has_basement living_in_m2
          renovated nice_view perfect_condition real_bathrooms has_lavatory
          single_floor month quartile_zone).2 "total_rooms"
      = bedrooms + real_bathrooms := rfl

/-- Witness for totalRoomsFormula at bedrooms = 2, real_bathrooms = 2. -/
theorem totalRoomsFormulaWitness :
    ((2 : ℚ) ∈ ([1, 2, 3] : List ℚ)) ∧
    col (predict_house_price zeroModel identityScaler 2 3 false 180 false
          false false 2 false false 6 2).2 "total_rooms"
      = 2 + 2 :=
  ⟨by norm_num,
   totalRoomsFormula zeroModel identityScaler 2 3 false 180 false false
     false 2 false false 6 2 (by norm_num) (by norm_num)⟩

/-- C6: at bedrooms=2, real_bathrooms=2, living_in_m2=180, grade=3,
quartile_zone=2, all six booleans false, month=6, the assembled row has
bathroom_bedroom_ratio = 2/3, total_rooms = 4, luxury_score = 5.4 and
quality_index = 3, and the returned price is exactly what the loaded model
returns for the scaled version of that feature row, for every model and
scaler. -/
theorem boundaryScenario (m : Model) (s : Scaler) :
    col (predict_house_price m s 2 3 false 180 false false false 2 false
          false 6 2).2 "bathroom_bedroom_ratio" = 2 / 3 ∧
    col (predict_house_price m s 2 3 false 180 false false false 2 false
          false 6 2).2 "total_rooms" = 4 ∧
    col (predict_house_price m s 2 3 false 180 false false false 2 false
          false 6 2).2 "luxury_score" = 5.4 ∧
    col (predict_house_price m s 2 3 false 180 false false false 2 false
          false 6 2).2 "quality_index" = 3 ∧
    (predict_house_price m s 2 3 false 180 false false false 2 false
        false 6 2).1
      = (m.predict (s.transform
          ((predict_house_price m s 2 3 false 180 false false false 2 false
              false 6 2).2.map Prod.snd))).headD 0 := by
  have hprice : (predict_house_price m s 2 3 false 180 false false false 2
        false false 6 2).1
      = (m.predict (s.transform
          ((predict_house_price m s 2 3 false 180 false false false 2 false
              false 6 2).2.map Prod.snd))).headD 0 := rfl
  have hrow : (predict_house_price m s 2 3 false 180 false false false 2
        false false 6 2).2
      = [("bedrooms", 2), ("grade", 3), ("has_basement", 0),
         ("living_in_m2", 180), ("renovated", 0), ("nice_view", 0),
         ("perfect_condition", 0), ("real_bathrooms", 2),
         ("has_lavatory", 0), ("single_floor", 0), ("month", 6),
         ("quartile_zone", 2), ("bathroom_bedroom_ratio", 2 / 3),
         ("total_rooms", 4), ("luxury_score", 5.4),
         ("quality_index", 3)] := by
    norm_num [predict_house_price, boolToInt, ratioDenominator]
  rw [hrow] at hprice ⊢
  exact ⟨rfl, rfl, rfl, rfl, hprice⟩

/-- C7: the prediction step is pure: it does not change the module globals
it reads, and a second call with the same globals and the same raw inputs
returns the identical result (scalar prediction and assembled feature row
alike). -/
theorem predictPureIdempotent (g : Globals) (r : RawInputs) :
    (predict_house_price_run g r).2 = g ∧
    (predict_house_price_run ((predict_house_price_run g r).2) r).1
      = (predict_house_price_run g r).1 := by
  have h2 : (predict_house_price_run g r).2 = g := by
    cases hm : g.model <;> cases hs : g.scaler <;>
      simp [predict_house_price_run, hm, hs]
  exact ⟨h2, by rw [h2]⟩

/-- C8: whenever load_model_and_scaler reports loaded=false, the script
halts with the user-visible error regardless of the button state, so the
prediction step is never reached. -/
theorem loaderFalseBlocksPrediction (store : ArtifactStore) (r : RawInputs)
    (pressed : Bool) (mOpt : Option Model) (sOpt : Option Scaler)
    (h : load_model_and_scaler store = Except.ok (mOpt, sOpt, false)) :
    run_app store r pressed = ScriptOutcome.haltedWithError := by
  unfold run_app
  rw [h]
  rfl

/-- Witness for loaderFalseBlocksPrediction at the store with both
artifact files missing and the predict button pressed. -/
theorem loaderFalseBlocksPredictionWitness :
    load_model_and_scaler storeBothMissing = Except.ok (none, none, false) ∧
    run_app storeBothMissing sampleInputs true
      = ScriptOutcome.haltedWithError :=
  ⟨rfl, loaderFalseBlocksPrediction storeBothMissing sampleInputs true none
     none rfl⟩

/-- C9: for every non-negative bedrooms value — in particular the UI range
{1,2,3} — the denominator bedrooms + 1 used by the
bathroom_bedroom_ratio derivation is non-zero, so the division never
divides by zero. -/
theorem ratioDenominatorNonzero (bedrooms : ℚ) (h : 0 ≤ bedrooms) :
    ratioDenominator bedrooms ≠ 0 := by
  unfold ratioDenominator
  intro hc
  nlinarith

/-- Witness for ratioDenominatorNonzero at bedrooms = 2. -/
theorem ratioDenominatorNonzeroWitness :
    (0 : ℚ) ≤ 2 ∧ ratioDenominator 2 ≠ 0 :=
  ⟨by norm_num, ratioDenominatorNonzero 2 (by norm_num)⟩

/-- C10: for every model, every scaler and every combination of raw
inputs, the feature row returned by predict_house_price has exactly the 16
columns of featureColumns in that fixed order, and it is the unscaled
assembled vector: it does not depend on the scaler at all. -/
theorem featureRowFixedOrderUnscaled (m : Model) (s1 s2 : Scaler)
    (bedrooms grade : ℚ) (has_basement : Bool) (living_in_m2 : ℚ)
    (renovated nice_view perfect_condition : Bool) (real_bathrooms : ℚ)
    (has_lavatory single_floor : Bool) (month quartile_zone : ℚ) :
    ((predict_house_price m s1 bedrooms grade has_basement living_in_m2
        renovated nice_view perfect_condition real_bathrooms has_lavatory
        single_floor month quartile_zone).2.map Prod.fst = featureColumns
     ∧ (predict_house_price m s1 bedrooms grade has_basement living_in_m2
        renovated nice_view perfect_condition real_bathrooms has_lavatory
        single_floor month quartile_zone).2.length = 16)
    ∧ (predict_house_price m s1 bedrooms grade has_basement living_in_m2
        renovated nice_view perfect_condition real_bathrooms has_lavatory
        single_floor month quartile_zone).2
      = (predict_house_price m s2 bedrooms grade has_basement living_in_m2
        renovated nice_view perfect_condition real_bathrooms has_lavatory
        single_floor month quartile_zone).2 :=
  ⟨⟨rfl, rfl⟩, rfl⟩

end HousePred
